import Mathlib

/-!
Verification of the identity/tenancy core of the Meeting Intelligence server.

This file shallowly embeds the Python modules
`src/server/src/permissions.py`, `src/server/src/workspace_context.py`,
`src/server/src/dependencies.py`, `src/server/src/api.py` (token branch of
`get_current_user`), `src/server/src/database.py` (retry wrapper, engine
registry, token validation, refresh-token ledger) and
`src/server/src/oauth.py` (token endpoint) as executable Lean functions,
and proves or refutes the frozen specification claims about them.

Modelling conventions:
* Python `None`/missing values become `Option`.
* Python truthiness of a string/optional is made explicit (`strTruthy`,
  `natTruthy`): `None`, `""` and `0` are falsy.
* A raised `HTTPException(status, msg)` becomes `Except (Nat × String)`.
* Cryptographic hashes (`hashlib.sha256(...).hexdigest()` and
  `base64url(sha256(...).digest())`) are kept abstract as function
  parameters; the claims under verification are independent of the
  concrete digest function.
* Database state (token tables, the refresh-consumption ledger, the
  pending-authorization-code dict, the engine cache) is passed explicitly
  and returned updated.
-/

namespace MeetingIntel

/-- Python truthiness of an optional string: `None` and `""` are falsy. -/
def strTruthy : Option String → Bool
  | none => false
  | some s => s ≠ ""

/-- Python truthiness of an optional integer: `None` and `0` are falsy. -/
def natTruthy : Option Nat → Bool
  | none => false
  | some n => n ≠ 0

/-- Association-list lookup, modelling a Python dict read. -/
def alookup {α : Type} (k : String) : List (String × α) → Option α
  | [] => none
  | (k2, v) :: rest => if k2 = k then some v else alookup k rest

/-- Association-list delete, modelling `del d[k]` on a Python dict. -/
def aerase {α : Type} (k : String) : List (String × α) → List (String × α)
  | [] => []
  | (k2, v) :: rest => if k2 = k then aerase k rest else (k2, v) :: aerase k rest

/-- Embeds `workspace_context.WorkspaceMembership` — one user membership in one
workspace (dataclass in `workspace_context.py`). -/
structure WorkspaceMembership where
  workspace_id : Nat
  workspace_name : String
  workspace_display_name : String
  db_name : String
  role : String
  is_default : Bool
  is_archived : Bool
deriving Repr, DecidableEq, Inhabited

/-- Embeds `workspace_context.WorkspaceContext` — the immutable per-request
context (dataclass in `workspace_context.py`). -/
structure WorkspaceContext where
  user_email : String
  is_org_admin : Bool
  memberships : List WorkspaceMembership
  active : WorkspaceMembership
deriving Repr, DecidableEq, Inhabited

/-- The `WorkspaceContext.role` property: role in the active workspace. -/
def WorkspaceContext.role (ctx : WorkspaceContext) : String :=
  ctx.active.role

/-- Embeds `workspace_context.make_legacy_context` — context for single-database
(pre-workspace) mode; grants org admin and a synthetic chair membership on
`settings.azure_sql_database`. -/
def make_legacy_context (azure_sql_database : String) (user_email : String) :
    WorkspaceContext :=
  let legacy_membership : WorkspaceMembership :=
    { workspace_id := 0
      workspace_name := "default"
      workspace_display_name := "Default"
      db_name := azure_sql_database
      role := "chair"
      is_default := true
      is_archived := false }
  { user_email := user_email
    is_org_admin := true
    memberships := [legacy_membership]
    active := legacy_membership }

/-- An entity passed to `check_permission`: the Python argument is either
`None` or a dict; only the `created_by` key is read.  An empty dict is
falsy in Python, so the dict is kept as an association list. -/
def Entity : Type := List (String × String)

instance : DecidableEq Entity := by
  unfold Entity
  infer_instance

/-- The Python test `entity and entity.get("created_by") != ctx.user_email`
from `check_permission`: truthy dict (non-empty) whose `created_by` differs
from the principal email (`None != email` is true in Python). -/
def entityNotOwn (entity : Option Entity) (email : String) : Bool :=
  match entity with
  | none => false
  | some e => e ≠ [] ∧ alookup "created_by" e ≠ some email

/-- Embeds `permissions.check_permission` — pure permission check.  Returns
`none` where the Python function returns `None` (allow) and
`some (status, msg)` where it raises `HTTPException(status, msg)`. -/
def check_permission (ctx : WorkspaceContext) (operation : String)
    (entity : Option Entity) : Option (Nat × String) :=
  -- Org admin bypasses RBAC checks within a workspace they have access to.
  if ctx.is_org_admin then
    none
  else
    let role := ctx.role
    -- Archived workspace: read-only for everyone
    if ctx.active.is_archived ∧ operation ≠ "read" then
      some (403, "Workspace " ++ ctx.active.workspace_display_name ++
        " is archived (read-only)")
    -- Read: all roles
    else if operation = "read" then
      none
    -- Create: member + chair
    else if operation = "create" then
      if role = "viewer" then some (403, "Viewers cannot create items")
      else none
    -- Update: member (own only) + chair (any)
    else if operation = "update" then
      if role = "viewer" then some (403, "Viewers cannot edit items")
      else if role = "member" ∧ entityNotOwn entity ctx.user_email then
        some (403, "Members can only edit their own items")
      else none
    -- Delete: chair only
    else if operation = "delete" then
      if role = "viewer" ∨ role = "member" then
        some (403, "Only chairs can delete items")
      else none
    -- Manage members: chair only
    else if operation = "manage_members" then
      if role ≠ "chair" then
        some (403, "Only chairs can manage workspace members")
      else none
    -- Manage workspace: org admin only (already handled above)
    else if operation = "manage_workspace" then
      some (403, "Only org admins can manage workspaces")
    else
      none

/-! ## `dependencies.py` — workspace resolution -/

/-- The first matching loop of `_resolve_active_workspace`: explicit
request matched by slug (`workspace_name`) or stringified numeric id. -/
def findRequested (memberships : List WorkspaceMembership) (r : String) :
    Option WorkspaceMembership :=
  memberships.find? (fun m => m.workspace_name = r ∨ toString m.workspace_id = r)

/-- The fallback chain of `_resolve_active_workspace`: the user default
workspace id (Python-truthy, so `None` and `0` are skipped), then the
membership flagged `is_default`, then the first membership. -/
def pickFallback (memberships : List WorkspaceMembership)
    (default_workspace_id : Option Nat) : Option WorkspaceMembership :=
  match
    (if natTruthy default_workspace_id then
      memberships.find? (fun m => some m.workspace_id = default_workspace_id)
    else none) with
  | some m => some m
  | none =>
    match memberships.find? (fun m => m.is_default) with
    | some m => some m
    | none => memberships.head?

/-- Embeds `dependencies._resolve_active_workspace` — picks the active workspace:
explicit request > user default > org default > first.  `Except` errors
are the raised `HTTPException`s.  The `requested` header is subject to
Python truthiness (`None` and `""` mean no explicit request). -/
def resolve_active_workspace (memberships : List WorkspaceMembership)
    (requested : Option String) (default_workspace_id : Option Nat) :
    Except (Nat × String) WorkspaceMembership :=
  if memberships.isEmpty then
    .error (403, "User has no workspace memberships")
  else if strTruthy requested then
    match findRequested memberships (requested.getD "") with
    | some m => .ok m
    | none => .error (403, "Not a member of workspace " ++ requested.getD "")
  else
    match pickFallback memberships default_workspace_id with
    | some m => .ok m
    | none => .error (403, "User has no workspace memberships")

/-- Outcome of the control-store read
`_get_user_memberships(cursor, email)`: either the query raised
(store unreachable) or it produced
`(is_org_admin, default_workspace_id, memberships)`. -/
inductive ControlRead where
  | unreachable
  | ok (is_org_admin : Bool) (default_workspace_id : Option Nat)
      (memberships : List WorkspaceMembership)
deriving Repr, DecidableEq

/-- Embeds `dependencies.resolve_workspace` — full per-request resolution.
Inputs model the runtime environment: `control_db_name` (empty string
when unset), whether the module-level `engine_registry` is initialised,
the `request.state.user_email` attribute (set by the auth layer), the
result of the control-store read, and the `X-Workspace-ID` header. -/
def resolve_workspace (control_db_name : String) (engine_registry : Bool)
    (azure_sql_database : String) (user_email : Option String)
    (control : ControlRead) (x_workspace_id : Option String) :
    Except (Nat × String) WorkspaceContext :=
  -- Legacy mode: no control database configured
  if control_db_name = "" ∨ ¬engine_registry then
    .ok (make_legacy_context azure_sql_database
      (user_email.getD "system@generationai.co.nz"))
  else if ¬strTruthy user_email then
    .error (401, "Authentication required")
  else
    match control with
    | .unreachable =>
      -- control DB unavailable — failing closed
      .error (503, "Service temporarily unavailable — please retry")
    | .ok is_org_admin default_ws_id memberships =>
      if memberships.isEmpty then
        .error (403, "User has no workspace memberships")
      else
        match resolve_active_workspace memberships x_workspace_id default_ws_id with
        | .error e => .error e
        | .ok active =>
          .ok { user_email := user_email.getD ""
                is_org_admin := is_org_admin
                memberships := memberships
                active := active }

/-! ## `database.py` — retry wrapper, stores, engine registry -/

/-- State of a backing database as seen by one request: reachable with
its current contents, or unreachable (every query raises a transient
error such as a communication-link failure). -/
inductive Store (α : Type) where
  | unreachable
  | reachable (data : α)
deriving Repr, DecidableEq

/-- Outcome of one attempt of a database operation body: success with a
value and the updated store contents, a transient fault (member of
`TRANSIENT_SQL_ERRORS`), or a non-transient fault. -/
inductive AttemptOut (σ α : Type) where
  | ok (a : α) (s : σ)
  | transient (s : σ)
  | fatal (s : σ)
deriving Repr, DecidableEq

/-- What a `retry_on_transient`-wrapped call hands back to its caller: the
normal return value, the structured `DATABASE_UNAVAILABLE` error dict after
retries are exhausted (a non-empty dict, hence truthy in Python), or a
propagated non-transient exception. -/
inductive RetryResult (α : Type) where
  | value (a : α)
  | errorDict
  | raised
deriving Repr, DecidableEq

/-- Embeds `database.MAX_RETRIES` — retry attempts after the first. -/
def MAX_RETRIES : Nat := 3

/-- The loop inside `database.retry_on_transient`: `fuel` is the number of
retries still allowed; at `fuel = 0` a transient fault returns the error
dict instead of retrying.  Non-transient faults propagate immediately. -/
def retryGo {σ α : Type} (body : σ → AttemptOut σ α) :
    Nat → σ → RetryResult α × σ
  | 0, s =>
    match body s with
    | .ok a s2 => (.value a, s2)
    | .transient s2 => (.errorDict, s2)
    | .fatal s2 => (.raised, s2)
  | fuel + 1, s =>
    match body s with
    | .ok a s2 => (.value a, s2)
    | .transient s2 => retryGo body fuel s2
    | .fatal s2 => (.raised, s2)

/-- Embeds `database.retry_on_transient` (default arguments): run the body with
up to `MAX_RETRIES` retries on transient faults.  The backoff sleeps do
not affect the result and are dropped. -/
def retry_on_transient {σ α : Type} (body : σ → AttemptOut σ α) (s : σ) :
    RetryResult α × σ :=
  retryGo body MAX_RETRIES s

/-- Python truthiness of a `retry_on_transient` result when the caller
tests it with `if not result`: a `bool` value is itself, the error dict is
a non-empty dict and hence truthy.  (`raised` never reaches such a test —
the exception propagates first; it is mapped to `true` vacuously.) -/
def retryTruthy : RetryResult Bool → Bool
  | .value b => b
  | .errorDict => true
  | .raised => true

/-- One row of the `RefreshTokenUsage` ledger:
`(TokenHash, FamilyId, ClientId)`; `TokenHash` is the primary key. -/
structure LedgerRow where
  token_hash : String
  family_id : String
  client_id : String
deriving Repr, DecidableEq

/-- Body of `database.consume_refresh_token`: the 35-day cleanup DELETE
does not affect unexpired rows and is dropped; the INSERT returns `True`,
or `False` on a primary-key violation (hash already consumed). -/
def consumeBody (token_hash family_id client_id : String)
    (store : Store Unit) (ledger : List LedgerRow) :
    AttemptOut (List LedgerRow) Bool :=
  match store with
  | .unreachable => .transient ledger
  | .reachable _ =>
    if ledger.any (fun r => r.token_hash = token_hash) then
      .ok false ledger
    else
      .ok true ({ token_hash := token_hash, family_id := family_id,
                  client_id := client_id } :: ledger)

/-- Embeds `database.consume_refresh_token` — record a refresh-token hash as
consumed; `False` on replay; wrapped in `retry_on_transient`, so an
unreachable store yields the truthy error dict, not `False`. -/
def consume_refresh_token (store : Store Unit) (ledger : List LedgerRow)
    (token_hash family_id client_id : String) :
    RetryResult Bool × List LedgerRow :=
  retry_on_transient (consumeBody token_hash family_id client_id store) ledger

/-- Row data returned by `database.validate_token_from_control_db` for a
valid, active, unexpired token hash in the control database. -/
structure ControlTokenInfo where
  user_email : String
  is_org_admin : Bool
  default_workspace_id : Option Nat
  memberships : List WorkspaceMembership
deriving Repr, DecidableEq

/-- Embeds `database.validate_token_from_control_db` — control-DB token lookup.
Returns `none` when the control DB is not configured, when the token is
invalid, **and also when the store raises** (the body is wrapped in
`try/except Exception: return None`), so an unreachable control store is
indistinguishable from an invalid token for its callers. -/
def validate_token_from_control_db (control_db_name : String)
    (engine_registry : Bool) (store : Store (List (String × ControlTokenInfo)))
    (token_hash : String) : Option ControlTokenInfo :=
  if ¬engine_registry ∨ control_db_name = "" then
    none
  else
    match store with
    | .unreachable => none
    | .reachable tbl => alookup token_hash tbl

/-- Body of `database.validate_client_token` (legacy per-workspace
`ClientToken` table): the table maps a token hash to
`(ClientName, ClientEmail)` for active unexpired rows. -/
def legacyTokenBody (store : Store (List (String × (String × String))))
    (token_hash : String) : Unit → AttemptOut Unit (Option (String × String))
  | _ =>
    match store with
    | .unreachable => .transient ()
    | .reachable tbl => .ok (alookup token_hash tbl) ()

/-- Embeds `database.validate_client_token` — deprecated legacy token lookup,
wrapped in `retry_on_transient` (so store failure returns the error
dict, not `None`). -/
def validate_client_token (store : Store (List (String × (String × String))))
    (token_hash : String) : RetryResult (Option (String × String)) :=
  (retry_on_transient (legacyTokenBody store token_hash) ()).1

/-- Embeds `database.EngineRegistry` — thread-safe lazy engine cache, modelled
as an association list `db_name ↦ engine handle` plus the number of
engines created so far (`created` doubles as the next fresh handle). -/
structure EngineRegistry where
  engines : List (String × Nat)
  created : Nat
deriving Repr, DecidableEq

/-- Embeds `EngineRegistry.get_engine` — double-checked locking: an unlocked
read, then under the lock a re-check and creation only if still absent.
The locked section is atomic at runtime, so every interleaving of
concurrent calls is some sequence of these atomic operations; the model
executes one call. -/
def EngineRegistry.get_engine (reg : EngineRegistry) (database_name : String) :
    Nat × EngineRegistry :=
  match alookup database_name reg.engines with
  | some e => (e, reg)
  | none =>
    match alookup database_name reg.engines with
    | some e => (e, reg)
    | none =>
      (reg.created,
       { engines := (database_name, reg.created) :: reg.engines
         created := reg.created + 1 })

/-- The `EngineRegistry.engine_count` property. -/
def EngineRegistry.engine_count (reg : EngineRegistry) : Nat :=
  reg.engines.length

/-- Run a sequence of `get_engine` calls (one per requested database
name) starting from a registry state. -/
def runGets (reg : EngineRegistry) : List String → EngineRegistry
  | [] => reg
  | n :: rest => runGets (reg.get_engine n).2 rest

/-! ## `api.py` — `get_current_user`, bearer-token branch -/

/-- Outcome of the bearer-token branch of `api.get_current_user`: either
the token path returns a user email, or control falls through to the
Azure Entra ID validation below it. -/
inductive ApiAuthOutcome where
  | email (e : String)
  | azurePath
deriving Repr, DecidableEq

/-- Bearer-token branch of `api.get_current_user` (lines 38–53): try the
control DB when configured, then **unconditionally** fall back to the
legacy `ClientToken` table; only if both fail does control reach the
Azure AD branch. -/
def get_current_user_token_branch (control_db_name : String)
    (engine_registry : Bool)
    (controlStore : Store (List (String × ControlTokenInfo)))
    (legacyStore : Store (List (String × (String × String))))
    (token_hash : String) : ApiAuthOutcome :=
  let fromControl : Option String :=
    if control_db_name ≠ "" ∧ engine_registry then
      match validate_token_from_control_db control_db_name engine_registry
          controlStore token_hash with
      | some info => if info.user_email ≠ "" then some info.user_email else none
      | none => none
    else none
  match fromControl with
  | some e => .email e
  | none =>
    -- Fallback: legacy workspace DB ClientToken table
    match validate_client_token legacyStore token_hash with
    | .value (some (_, client_email)) =>
      if client_email ≠ "" then .email client_email else .azurePath
    | _ => .azurePath

/-! ## `oauth.py` — token endpoint

The two cryptographic digests are abstract parameters: `sha256hex`
stands for `hashlib.sha256(x.encode()).hexdigest()` and `s256` for
`base64.urlsafe_b64encode(hashlib.sha256(x.encode()).digest()).decode().rstrip("=")`
(the PKCE S256 transform).  JWT encoding/decoding is likewise abstracted:
`decode` stands for `_decode_jwt_with_rotation` and issued tokens are
represented by their claim payloads. -/

/-- An entry of the `_oauth_clients_cache` dict (the fields the token
endpoint reads): `client_secret` holds the SHA-256 hex digest of the
secret issued at registration. -/
structure OAuthClient where
  client_id : String
  client_secret : String
  redirect_uris : List String
deriving Repr, DecidableEq

/-- An entry of the `pending_auth_codes` dict, as minted by the consent
POST handler (`authorize_post`). -/
structure AuthCodeData where
  client_id : String
  redirect_uri : String
  scope : String
  code_challenge : String
  code_challenge_method : String
  created_at : Nat
  expires_at : Nat
deriving Repr, DecidableEq

/-- The token pair issued by a successful `authorization_code` grant,
represented by its claims: access token subject and scope, and the fresh
family id embedded in the refresh token. -/
structure TokenPair where
  access_sub : String
  scope : String
  refresh_family : String
deriving Repr, DecidableEq

/-- The pair issued by a successful `refresh_token` grant: new access
token subject and the (inherited) family id of the rotated refresh
token. -/
structure RefreshSuccess where
  access_sub : String
  refresh_family : String
deriving Repr, DecidableEq

/-- Decoded claims of a presented refresh JWT: the `type` claim, the
`sub` claim, and the optional `family` claim. -/
structure RefreshPayload where
  typ : String
  sub : String
  family : Option String
deriving Repr, DecidableEq

/-- Result of `_decode_jwt_with_rotation` on a presented refresh token:
valid payload, `jwt.ExpiredSignatureError`, or `jwt.InvalidTokenError`. -/
inductive JwtDecode where
  | ok (p : RefreshPayload)
  | expired
  | invalid
deriving Repr, DecidableEq

/-- Client-credential validation at the top of the `token` endpoint:
unknown `client_id` or wrong secret hash is a 401. -/
def checkClientCreds (clients : List (String × OAuthClient))
    (sha256hex : String → String) (client_id client_secret : String) :
    Option (Nat × String) :=
  match alookup client_id clients with
  | none => some (401, "Invalid client_id")
  | some client =>
    if client.client_secret ≠ sha256hex client_secret then
      some (401, "Invalid client_secret")
    else none

/-- The `authorization_code` branch of the `token` endpoint (after client
credentials have been checked): validates the pending code, its expiry,
client id, redirect URI (only when one is supplied — Python truthiness),
and PKCE, then deletes the code and issues a pair tagged with a fresh
family id. -/
def authCodeGrant (s256 : String → String) (nowT : Nat)
    (fresh_family : String) (pending : List (String × AuthCodeData))
    (client_id : String) (code redirect_uri code_verifier : Option String) :
    Except (Nat × String) TokenPair × List (String × AuthCodeData) :=
  if ¬strTruthy code then
    (.error (400, "Invalid or expired authorization code"), pending)
  else
    match alookup (code.getD "") pending with
    | none => (.error (400, "Invalid or expired authorization code"), pending)
    | some auth =>
      if auth.expires_at < nowT then
        (.error (400, "Authorization code expired"), aerase (code.getD "") pending)
      else if auth.client_id ≠ client_id then
        (.error (400, "client_id mismatch"), pending)
      else if strTruthy redirect_uri ∧ auth.redirect_uri ≠ redirect_uri.getD "" then
        (.error (400, "redirect_uri mismatch"), pending)
      else if ¬strTruthy code_verifier then
        (.error (400, "code_verifier is required"), pending)
      else if s256 (code_verifier.getD "") ≠ auth.code_challenge then
        (.error (400, "Invalid code_verifier"), pending)
      else
        (.ok { access_sub := client_id
               scope := auth.scope
               refresh_family := fresh_family },
         aerase (code.getD "") pending)

/-- The `refresh_token` branch of the `token` endpoint (after client
credentials have been checked): decode, check `type` and `sub`, then
consume the hash of the raw presented token string in the ledger; a
`False` from `consume_refresh_token` is a replay → 401. -/
def refreshGrant (sha256hex : String → String) (decode : String → JwtDecode)
    (ledgerStore : Store Unit) (ledger : List LedgerRow)
    (client_id : String) (refresh_token : Option String) :
    Except (Nat × String) RefreshSuccess × List LedgerRow :=
  if ¬strTruthy refresh_token then
    (.error (400, "refresh_token is required"), ledger)
  else
    match decode (refresh_token.getD "") with
    | .expired => (.error (401, "Refresh token expired"), ledger)
    | .invalid => (.error (401, "Invalid refresh token"), ledger)
    | .ok payload =>
      if payload.typ ≠ "refresh" then
        (.error (400, "Invalid refresh token"), ledger)
      else if payload.sub ≠ client_id then
        (.error (400, "client_id mismatch"), ledger)
      else
        let token_hash := sha256hex (refresh_token.getD "")
        let family_id := payload.family.getD "legacy"
        match consume_refresh_token ledgerStore ledger token_hash family_id
            client_id with
        | (.raised, ledger2) => (.error (500, "Internal Server Error"), ledger2)
        | (res, ledger2) =>
          if ¬retryTruthy res then
            (.error (401, "Refresh token has already been used"), ledger2)
          else
            (.ok { access_sub := client_id, refresh_family := family_id },
             ledger2)

/-- The successful response of the `token` endpoint, by grant. -/
inductive TokenResponse where
  | fromCode (t : TokenPair)
  | fromRefresh (t : RefreshSuccess)
deriving Repr, DecidableEq

/-- Mutable server state the `token` endpoint touches: the in-memory
`pending_auth_codes` dict and the persisted `RefreshTokenUsage` ledger. -/
structure OAuthState where
  pending : List (String × AuthCodeData)
  ledger : List LedgerRow
deriving Repr, DecidableEq

/-- Embeds `oauth.token` — the full token endpoint: validates client
credentials, then dispatches on `grant_type`. -/
def oauth_token (clients : List (String × OAuthClient))
    (sha256hex s256 : String → String) (decode : String → JwtDecode)
    (nowT : Nat) (fresh_family : String) (ledgerStore : Store Unit)
    (st : OAuthState) (grant_type : String)
    (code redirect_uri : Option String) (client_id client_secret : String)
    (code_verifier refresh_token : Option String) :
    Except (Nat × String) TokenResponse × OAuthState :=
  match checkClientCreds clients sha256hex client_id client_secret with
  | some e => (.error e, st)
  | none =>
    if grant_type = "authorization_code" then
      match authCodeGrant s256 nowT fresh_family st.pending
          client_id code redirect_uri code_verifier with
      | (.error e, pending2) => (.error e, { st with pending := pending2 })
      | (.ok t, pending2) => (.ok (.fromCode t), { st with pending := pending2 })
    else if grant_type = "refresh_token" then
      match refreshGrant sha256hex decode ledgerStore st.ledger client_id
          refresh_token with
      | (.error e, ledger2) => (.error e, { st with ledger := ledger2 })
      | (.ok t, ledger2) => (.ok (.fromRefresh t), { st with ledger := ledger2 })
    else
      (.error (400, "Unsupported grant_type: " ++ grant_type), st)

/-! ## Fixtures for concrete counterexamples and witnesses -/

/-- Fixture: a viewer membership in a non-archived workspace. -/
def viewerMembership : WorkspaceMembership :=
  { workspace_id := 1
    workspace_name := "alpha"
    workspace_display_name := "Alpha"
    db_name := "db-alpha"
    role := "viewer"
    is_default := true
    is_archived := false }

/-- Fixture: a viewer who also carries the org-admin flag. -/
def ctxViewerAdmin : WorkspaceContext :=
  { user_email := "user@example.com"
    is_org_admin := true
    memberships := [viewerMembership]
    active := viewerMembership }

/-- Fixture: the same viewer without the org-admin flag. -/
def ctxViewerPlain : WorkspaceContext :=
  { user_email := "user@example.com"
    is_org_admin := false
    memberships := [viewerMembership]
    active := viewerMembership }

/-- Fixture: a chair membership in an archived workspace. -/
def archivedChairMembership : WorkspaceMembership :=
  { workspace_id := 2
    workspace_name := "bravo"
    workspace_display_name := "Bravo"
    db_name := "db-bravo"
    role := "chair"
    is_default := true
    is_archived := true }

/-- Fixture: an org admin whose active workspace is archived. -/
def ctxAdminArchived : WorkspaceContext :=
  { user_email := "admin@example.com"
    is_org_admin := true
    memberships := [archivedChairMembership]
    active := archivedChairMembership }

/-- Fixture: a plain chair whose active workspace is archived. -/
def ctxChairArchived : WorkspaceContext :=
  { user_email := "chair@example.com"
    is_org_admin := false
    memberships := [archivedChairMembership]
    active := archivedChairMembership }

/-! ## Claim C2 — org-admin flag and the data-operation role matrix -/

/-- Claim C2 counterexample: the org-admin flag alone **does** flip a
data-operation decision.  A viewer who is org admin is allowed `delete`
(the early `if ctx.is_org_admin: return` in `check_permission` bypasses
every role check), while the identical context without the flag is
denied — contradicting the claim that viewers are denied delete exactly
as for a non-admin with the same workspace role. -/
theorem C2_counterexample :
    check_permission ctxViewerAdmin "delete" none = none ∧
    check_permission ctxViewerPlain "delete" none =
      some (403, "Only chairs can delete items") ∧
    ctxViewerAdmin.active = ctxViewerPlain.active ∧
    ctxViewerAdmin.is_org_admin = true ∧ ctxViewerPlain.is_org_admin = false := by
  refine ⟨rfl, rfl, rfl, rfl, rfl⟩

/-- Claim C2 (amended): for non-org-admin contexts in a non-archived
workspace the role matrix holds exactly as claimed — viewers are denied
create/update/delete, members may create but update only when no
non-empty entity with a foreign `created_by` is supplied and never
delete, chairs may do all three; but the org-admin flag bypasses every
check, allowing all operations (including data operations) regardless of
workspace role. -/
theorem C2_role_matrix (ctx : WorkspaceContext) (entity : Option Entity)
    (hadmin : ctx.is_org_admin = false)
    (harch : ctx.active.is_archived = false) :
    (ctx.role = "viewer" →
      check_permission ctx "create" entity =
        some (403, "Viewers cannot create items") ∧
      check_permission ctx "update" entity =
        some (403, "Viewers cannot edit items") ∧
      check_permission ctx "delete" entity =
        some (403, "Only chairs can delete items")) ∧
    (ctx.role = "member" →
      check_permission ctx "create" entity = none ∧
      (check_permission ctx "update" entity = none ↔
        entityNotOwn entity ctx.user_email = false) ∧
      check_permission ctx "delete" entity =
        some (403, "Only chairs can delete items")) ∧
    (ctx.role = "chair" →
      check_permission ctx "create" entity = none ∧
      check_permission ctx "update" entity = none ∧
      check_permission ctx "delete" entity = none) ∧
    (∀ op : String, ∀ e : Option Entity,
      check_permission { ctx with is_org_admin := true } op e = none) := by
  refine ⟨?_, ?_, ?_, ?_⟩
  · intro hrole
    simp only [WorkspaceContext.role] at hrole
    refine ⟨?_, ?_, ?_⟩ <;>
      simp [check_permission, WorkspaceContext.role, hadmin, harch, hrole]
  · intro hrole
    simp only [WorkspaceContext.role] at hrole
    refine ⟨?_, ?_, ?_⟩ <;>
      simp [check_permission, WorkspaceContext.role, hadmin, harch, hrole]
  · intro hrole
    simp only [WorkspaceContext.role] at hrole
    refine ⟨?_, ?_, ?_⟩ <;>
      simp [check_permission, WorkspaceContext.role, hadmin, harch, hrole]
  · intro op e
    simp [check_permission]

/-- Witness for `C2_role_matrix` at the concrete viewer context. -/
theorem C2_role_matrix_witness :
    ctxViewerPlain.is_org_admin = false ∧
    ctxViewerPlain.active.is_archived = false ∧
    check_permission ctxViewerPlain "create" none =
      some (403, "Viewers cannot create items") := by
  refine ⟨rfl, rfl, ?_⟩
  exact ((C2_role_matrix ctxViewerPlain none rfl rfl).1 rfl).1

/-! ## Claim C3 — archived workspaces and data mutation -/

/-- Claim C3 counterexample: an org admin **is** allowed `create` in an
archived workspace — the org-admin early return in `check_permission`
precedes the archived check, so archival is not absolute for data
mutation, contradicting the claim. -/
theorem C3_counterexample :
    ctxAdminArchived.active.is_archived = true ∧
    ctxAdminArchived.is_org_admin = true ∧
    check_permission ctxAdminArchived "create" none = none ∧
    check_permission ctxAdminArchived "update" none = none ∧
    check_permission ctxAdminArchived "delete" none = none := by
  refine ⟨rfl, rfl, rfl, rfl, rfl⟩

/-- Claim C3 (amended): when the active workspace is archived,
`check_permission` denies create/update/delete for every
**non-org-admin** principal regardless of role; org admins bypass the
archived check entirely. -/
theorem C3_archived_readonly (ctx : WorkspaceContext) (entity : Option Entity)
    (op : String) (hadmin : ctx.is_org_admin = false)
    (harch : ctx.active.is_archived = true)
    (hop : op = "create" ∨ op = "update" ∨ op = "delete") :
    check_permission ctx op entity =
      some (403, "Workspace " ++ ctx.active.workspace_display_name ++
        " is archived (read-only)") := by
  rcases hop with h | h | h <;> subst h <;>
    simp [check_permission, hadmin, harch]

/-- Witness for `C3_archived_readonly` at the concrete archived chair. -/
theorem C3_archived_readonly_witness :
    ctxChairArchived.is_org_admin = false ∧
    ctxChairArchived.active.is_archived = true ∧
    check_permission ctxChairArchived "delete" none =
      some (403, "Workspace Bravo is archived (read-only)") := by
  refine ⟨rfl, rfl, ?_⟩
  exact C3_archived_readonly ctxChairArchived none "delete" rfl rfl
    (Or.inr (Or.inr rfl))

/-! ## Claim C9 — legacy mode grants a full-access context -/

/-- Claim C9: with no control database configured, `resolve_workspace`
returns, for every principal, the legacy context: org admin, one
synthetic non-archived chair membership — and every permission check
passes on it. -/
theorem C9_legacy_mode (control_db_name azure_sql_database : String)
    (engine_registry : Bool) (user_email : Option String)
    (control : ControlRead) (xws : Option String)
    (hc : control_db_name = "") :
    ∃ ctx : WorkspaceContext,
      resolve_workspace control_db_name engine_registry azure_sql_database
        user_email control xws = .ok ctx ∧
      ctx.is_org_admin = true ∧
      ctx.memberships = [ctx.active] ∧
      ctx.active.role = "chair" ∧
      ctx.active.is_archived = false ∧
      (∀ op entity, check_permission ctx op entity = none) := by
  subst hc
  refine ⟨make_legacy_context azure_sql_database
    (user_email.getD "system@generationai.co.nz"), ?_, rfl, rfl, rfl, rfl, ?_⟩
  · simp [resolve_workspace]
  · intro op entity
    simp [check_permission, make_legacy_context]

/-- Witness for `C9_legacy_mode` at concrete legacy-mode inputs. -/
theorem C9_legacy_mode_witness :
    ∃ ctx : WorkspaceContext,
      resolve_workspace "" true "meeting-db" (some "user@example.com")
        ControlRead.unreachable none = .ok ctx ∧
      ctx.is_org_admin = true ∧
      ctx.memberships = [ctx.active] ∧
      ctx.active.role = "chair" ∧
      ctx.active.is_archived = false ∧
      (∀ op entity, check_permission ctx op entity = none) :=
  C9_legacy_mode "" "meeting-db" true (some "user@example.com")
    ControlRead.unreachable none rfl

/-! ## Claim C4 — active-workspace selection priority -/

/-- Claim C4: explicit requests for a workspace the principal is not a
member of are Forbidden (403) and never substituted; an explicit request
that matches picks exactly the matching membership; with no explicit
request the priority is stored default workspace id (a positive id, per
the control-DB identity columns), then the organization-default flag,
then the first membership; and an empty membership list is Forbidden. -/
theorem C4_resolution_priority (ms : List WorkspaceMembership)
    (dflt : Option Nat) :
    (∀ req : Option String,
      resolve_active_workspace [] req dflt =
        .error (403, "User has no workspace memberships")) ∧
    (∀ r : String, r ≠ "" →
      (∀ m ∈ ms, m.workspace_name ≠ r ∧ toString m.workspace_id ≠ r) →
      ∃ msg, resolve_active_workspace ms (some r) dflt = .error (403, msg)) ∧
    (∀ r : String, r ≠ "" → ∀ m, findRequested ms r = some m →
      resolve_active_workspace ms (some r) dflt = .ok m) ∧
    (∀ d m, dflt = some d → d ≠ 0 →
      ms.find? (fun mm => some mm.workspace_id = dflt) = some m →
      resolve_active_workspace ms none dflt = .ok m) ∧
    (∀ m,
      (natTruthy dflt = true →
        ms.find? (fun mm => some mm.workspace_id = dflt) = none) →
      ms.find? (fun mm => mm.is_default) = some m →
      resolve_active_workspace ms none dflt = .ok m) ∧
    ((natTruthy dflt = true →
        ms.find? (fun mm => some mm.workspace_id = dflt) = none) →
      ms.find? (fun mm => mm.is_default) = none →
      ∀ m, ms.head? = some m →
      resolve_active_workspace ms none dflt = .ok m) := by
  refine ⟨?_, ?_, ?_, ?_, ?_, ?_⟩
  · intro req
    simp [resolve_active_workspace]
  · intro r hr h
    by_cases hms : ms.isEmpty
    · exact ⟨"User has no workspace memberships",
        by simp [resolve_active_workspace, hms]⟩
    · have hfind : findRequested ms r = none := by
        unfold findRequested
        rw [List.find?_eq_none]
        intro m hm
        rcases h m hm with ⟨h1, h2⟩
        simp [h1, h2]
      exact ⟨"Not a member of workspace " ++ r,
        by simp [resolve_active_workspace, hms, strTruthy, hr, hfind]⟩
  · intro r hr m hfind
    have hmem : m ∈ ms := by
      have := List.mem_of_find?_eq_some hfind
      exact this
    have hms : ms.isEmpty = false := by
      cases ms with
      | nil => cases hmem
      | cons a t => rfl
    simp [resolve_active_workspace, hms, strTruthy, hr, hfind]
  · intro d m hd hd0 hfind
    have hmem : m ∈ ms := List.mem_of_find?_eq_some hfind
    have hms : ms.isEmpty = false := by
      cases ms with
      | nil => cases hmem
      | cons a t => rfl
    have htr : natTruthy dflt = true := by
      subst hd
      simp [natTruthy, hd0]
    simp [resolve_active_workspace, hms, strTruthy, pickFallback, htr, hfind]
  · intro m h1 h2
    have hmem : m ∈ ms := List.mem_of_find?_eq_some h2
    have hms : ms.isEmpty = false := by
      cases ms with
      | nil => cases hmem
      | cons a t => rfl
    cases htr : natTruthy dflt with
    | true =>
      simp [resolve_active_workspace, hms, strTruthy, pickFallback, htr,
        h1 htr, h2]
    | false =>
      simp [resolve_active_workspace, hms, strTruthy, pickFallback, htr, h2]
  · intro h1 h2 m hhead
    have hms : ms.isEmpty = false := by
      cases ms with
      | nil => cases hhead
      | cons a t => rfl
    cases htr : natTruthy dflt with
    | true =>
      simp [resolve_active_workspace, hms, strTruthy, pickFallback, htr,
        h1 htr, h2, hhead]
    | false =>
      simp [resolve_active_workspace, hms, strTruthy, pickFallback, htr, h2,
        hhead]

/-- Witness for `C4_resolution_priority`: a principal who is only a
member of workspace `alpha` gets 403 when requesting `bravo`, and gets
`alpha` (the flagged default) with no explicit request. -/
theorem C4_resolution_priority_witness :
    (∃ msg, resolve_active_workspace [viewerMembership] (some "bravo") none =
      .error (403, msg)) ∧
    resolve_active_workspace [viewerMembership] none none =
      .ok viewerMembership := by
  constructor
  · exact (C4_resolution_priority [viewerMembership] none).2.1 "bravo"
      (by decide) (by decide)
  · exact (C4_resolution_priority [viewerMembership] none).2.2.2.2.1
      viewerMembership (by intro h; simp [natTruthy] at h) rfl

/-! ## Claim C5 — control-store failure during resolution fails closed -/

/-- Claim C5: in workspace mode (control DB configured and registry
initialised), a failing control-store read during resolution yields the
503 Unavailable error and never any `WorkspaceContext`. -/
theorem C5_resolve_fail_closed (control_db_name azure_sql_database : String)
    (user_email : Option String) (xws : Option String)
    (hc : control_db_name ≠ "") (hu : strTruthy user_email = true) :
    resolve_workspace control_db_name true azure_sql_database user_email
      ControlRead.unreachable xws =
      .error (503, "Service temporarily unavailable — please retry") ∧
    ∀ ctx, resolve_workspace control_db_name true azure_sql_database
      user_email ControlRead.unreachable xws ≠ .ok ctx := by
  have h : resolve_workspace control_db_name true azure_sql_database
      user_email ControlRead.unreachable xws =
      .error (503, "Service temporarily unavailable — please retry") := by
    simp [resolve_workspace, hc, hu]
  exact ⟨h, by intro ctx hctx; rw [h] at hctx; cases hctx⟩

/-- Witness for `C5_resolve_fail_closed` at concrete inputs. -/
theorem C5_resolve_fail_closed_witness :
    resolve_workspace "control-db" true "meeting-db" (some "user@example.com")
      ControlRead.unreachable none =
      .error (503, "Service temporarily unavailable — please retry") :=
  (C5_resolve_fail_closed "control-db" "meeting-db" (some "user@example.com")
    none (by decide) (by decide)).1

/-! ## Claim C1 — token validation must fail closed on control-store loss -/

/-- Claim C1 (code bug): with the control store configured (and the
engine registry initialised) but unreachable,
`validate_token_from_control_db` swallows the exception and returns
`None`, and `api.get_current_user` then **falls back to the legacy
workspace ClientToken store** and authenticates the token there — it
neither returns a 503 Unavailable nor stops at the control store,
contradicting the fail-closed contract (and the repository's own
`test_fail_closed.py`, which asserts `validate_client_token` must not be
called when `control_db_name` is set).  When the legacy store is also
unreachable, the request falls through to the Azure AD branch (a 401),
still never a 503. -/
theorem C1_code_bug :
    validate_token_from_control_db "control-db" true Store.unreachable
      "hash123" = none ∧
    get_current_user_token_branch "control-db" true Store.unreachable
      (Store.reachable [("hash123", ("Claude", "legacy@example.com"))])
      "hash123" = .email "legacy@example.com" ∧
    get_current_user_token_branch "control-db" true Store.unreachable
      Store.unreachable "hash123" = .azurePath := by
  refine ⟨rfl, rfl, rfl⟩

/-! ## Claim C6 — authorization codes are single use -/

/-- Looking up a key after erasing it always misses: deleting a
code removes it. -/
theorem alookup_aerase {α : Type} (k : String) (l : List (String × α)) :
    alookup k (aerase k l) = none := by
  induction l with
  | nil => rfl
  | cons p t ih =>
    obtain ⟨k2, v⟩ := p
    by_cases h : k2 = k
    · simpa [aerase, h] using ih
    · simpa [aerase, alookup, h] using ih

/-- Claim C6: a pending authorization code with a matching PKCE verifier
is exchanged successfully exactly once — the exchange deletes the code
(and touches nothing else), a second exchange of the same code fails as
invalid/expired, and a non-matching verifier never succeeds. -/
theorem C6_auth_code_single_use
    (clients : List (String × OAuthClient)) (sha256hex s256 : String → String)
    (decode : String → JwtDecode) (nowT : Nat) (fresh_family : String)
    (ledgerStore : Store Unit) (st : OAuthState)
    (cid secret c v : String) (client : OAuthClient) (auth : AuthCodeData)
    (hclient : alookup cid clients = some client)
    (hsecret : client.client_secret = sha256hex secret)
    (hcne : c ≠ "")
    (hcode : alookup c st.pending = some auth)
    (hexp : ¬ auth.expires_at < nowT)
    (hcid : auth.client_id = cid)
    (hvne : v ≠ "")
    (hv : s256 v = auth.code_challenge) :
    ∃ st2 : OAuthState,
      oauth_token clients sha256hex s256 decode nowT fresh_family ledgerStore
        st "authorization_code" (some c) (some auth.redirect_uri) cid secret
        (some v) none =
        (.ok (.fromCode { access_sub := cid
                          scope := auth.scope
                          refresh_family := fresh_family }), st2) ∧
      st2.pending = aerase c st.pending ∧
      alookup c st2.pending = none ∧
      st2.ledger = st.ledger ∧
      oauth_token clients sha256hex s256 decode nowT fresh_family ledgerStore
        st2 "authorization_code" (some c) (some auth.redirect_uri) cid secret
        (some v) none =
        (.error (400, "Invalid or expired authorization code"), st2) ∧
      (∀ v2 : String, v2 ≠ "" → s256 v2 ≠ auth.code_challenge →
        (oauth_token clients sha256hex s256 decode nowT fresh_family
          ledgerStore st "authorization_code" (some c)
          (some auth.redirect_uri) cid secret (some v2) none).1 =
          .error (400, "Invalid code_verifier")) := by
  refine ⟨{ pending := aerase c st.pending, ledger := st.ledger }, ?_, rfl,
    alookup_aerase c st.pending, rfl, ?_, ?_⟩
  · simp [oauth_token, checkClientCreds, authCodeGrant, strTruthy, hclient,
      hsecret, hcne, hcode, hexp, hcid, hvne, hv]
  · simp [oauth_token, checkClientCreds, authCodeGrant, strTruthy, hclient,
      hsecret, hcne, alookup_aerase]
  · intro v2 hv2ne hv2
    simp [oauth_token, checkClientCreds, authCodeGrant, strTruthy, hclient,
      hsecret, hcne, hcode, hexp, hcid, hv2ne, hv2]

/-- Fixture: a registered OAuth client whose stored secret hash matches
`witSha "s3cret"` under the concrete digest `witSha`. -/
def witClient : OAuthClient :=
  { client_id := "cid-1"
    client_secret := "hex:s3cret"
    redirect_uris := ["https://claude.ai/cb"] }

/-- Fixture: concrete stand-in for the SHA-256 hex digest. -/
def witSha (s : String) : String := "hex:" ++ s

/-- Fixture: concrete stand-in for the PKCE S256 transform. -/
def witS256 (s : String) : String := "s256:" ++ s

/-- Fixture: a pending authorization code bound to `witClient` and the
challenge `witS256 "verif-1"`, expiring at t = 600. -/
def witAuth : AuthCodeData :=
  { client_id := "cid-1"
    redirect_uri := "https://claude.ai/cb"
    scope := "mcp:read mcp:write"
    code_challenge := "s256:verif-1"
    code_challenge_method := "S256"
    created_at := 0
    expires_at := 600 }

/-- Fixture: server state holding the single pending code. -/
def witState : OAuthState :=
  { pending := [("code-1", witAuth)], ledger := [] }

/-- Witness for `C6_auth_code_single_use` at fully concrete inputs
(the two digests instantiated with concrete tagging functions). -/
theorem C6_auth_code_single_use_witness :
    ∃ st2 : OAuthState,
      oauth_token [("cid-1", witClient)] witSha witS256
        (fun _ => JwtDecode.invalid) 100 "fam-1" (Store.reachable ()) witState
        "authorization_code" (some "code-1") (some witAuth.redirect_uri)
        "cid-1" "s3cret" (some "verif-1") none =
        (.ok (.fromCode { access_sub := "cid-1"
                          scope := witAuth.scope
                          refresh_family := "fam-1" }), st2) ∧
      st2.pending = aerase "code-1" witState.pending ∧
      alookup "code-1" st2.pending = none ∧
      st2.ledger = witState.ledger ∧
      oauth_token [("cid-1", witClient)] witSha witS256
        (fun _ => JwtDecode.invalid) 100 "fam-1" (Store.reachable ()) st2
        "authorization_code" (some "code-1") (some witAuth.redirect_uri)
        "cid-1" "s3cret" (some "verif-1") none =
        (.error (400, "Invalid or expired authorization code"), st2) ∧
      (∀ v2 : String, v2 ≠ "" → witS256 v2 ≠ witAuth.code_challenge →
        (oauth_token [("cid-1", witClient)] witSha witS256
          (fun _ => JwtDecode.invalid) 100 "fam-1" (Store.reachable ())
          witState "authorization_code" (some "code-1")
          (some witAuth.redirect_uri) "cid-1" "s3cret" (some v2) none).1 =
          .error (400, "Invalid code_verifier")) :=
  C6_auth_code_single_use [("cid-1", witClient)] witSha witS256
    (fun _ => JwtDecode.invalid) 100 "fam-1" (Store.reachable ()) witState
    "cid-1" "s3cret" "code-1" "verif-1" witClient witAuth
    rfl rfl (by decide) rfl (by decide) rfl (by decide) rfl

/-! ## Claim C7 — refresh-token replay rejection (reachable ledger) -/

/-- Claim C7: with the consumption-ledger store reachable, redeeming the
same refresh secret twice fails with 401 on the second attempt, and more
generally any refresh secret whose hash is already recorded in the
ledger is rejected with 401 — one physical secret never yields two valid
pairs. -/
theorem C7_refresh_replay_rejected
    (clients : List (String × OAuthClient)) (sha256hex s256 : String → String)
    (decode : String → JwtDecode) (nowT : Nat) (fresh_family : String)
    (st : OAuthState) (cid secret rt : String) (client : OAuthClient)
    (p : RefreshPayload)
    (hclient : alookup cid clients = some client)
    (hsecret : client.client_secret = sha256hex secret)
    (hrt : rt ≠ "")
    (hdec : decode rt = .ok p)
    (htyp : p.typ = "refresh")
    (hsub : p.sub = cid)
    (hfresh : st.ledger.any (fun r => r.token_hash = sha256hex rt) = false) :
    ∃ st2 : OAuthState,
      oauth_token clients sha256hex s256 decode nowT fresh_family
        (Store.reachable ()) st "refresh_token" none none cid secret none
        (some rt) =
        (.ok (.fromRefresh { access_sub := cid
                             refresh_family := p.family.getD "legacy" }),
         st2) ∧
      st2.ledger.any (fun r => r.token_hash = sha256hex rt) = true ∧
      st2.pending = st.pending ∧
      oauth_token clients sha256hex s256 decode nowT fresh_family
        (Store.reachable ()) st2 "refresh_token" none none cid secret none
        (some rt) =
        (.error (401, "Refresh token has already been used"), st2) ∧
      (∀ st3 : OAuthState,
        st3.ledger.any (fun r => r.token_hash = sha256hex rt) = true →
        (oauth_token clients sha256hex s256 decode nowT fresh_family
          (Store.reachable ()) st3 "refresh_token" none none cid secret none
          (some rt)).1 =
          .error (401, "Refresh token has already been used")) := by
  have hreplay : ∀ st3 : OAuthState,
      st3.ledger.any (fun r => r.token_hash = sha256hex rt) = true →
      oauth_token clients sha256hex s256 decode nowT fresh_family
        (Store.reachable ()) st3 "refresh_token" none none cid secret none
        (some rt) =
        (.error (401, "Refresh token has already been used"), st3) := by
    intro st3 h3
    simp [oauth_token, checkClientCreds, refreshGrant, strTruthy, hclient,
      hsecret, hrt, hdec, htyp, hsub, consume_refresh_token,
      retry_on_transient, MAX_RETRIES, retryGo, consumeBody, h3, retryTruthy]
  refine ⟨{ pending := st.pending
            ledger := { token_hash := sha256hex rt
                        family_id := p.family.getD "legacy"
                        client_id := cid } :: st.ledger }, ?_, ?_, rfl, ?_, ?_⟩
  · simp [oauth_token, checkClientCreds, refreshGrant, strTruthy, hclient,
      hsecret, hrt, hdec, htyp, hsub, consume_refresh_token,
      retry_on_transient, MAX_RETRIES, retryGo, consumeBody, hfresh,
      retryTruthy]
  · simp
  · exact hreplay _ (by simp)
  · intro st3 h3
    rw [hreplay st3 h3]

/-- Fixture: decoded-refresh-JWT stand-in used by the C7 and C10
witnesses: the one string "rt-1" decodes to a valid refresh payload for
client `cid-1` in family `fam-0`. -/
def witDecode (s : String) : JwtDecode :=
  if s = "rt-1" then
    .ok { typ := "refresh", sub := "cid-1", family := some "fam-0" }
  else .invalid

/-- Witness for `C7_refresh_replay_rejected` at fully concrete inputs. -/
theorem C7_refresh_replay_rejected_witness :
    ∃ st2 : OAuthState,
      oauth_token [("cid-1", witClient)] witSha witS256 witDecode 100 "fam-1"
        (Store.reachable ()) witState "refresh_token" none none "cid-1"
        "s3cret" none (some "rt-1") =
        (.ok (.fromRefresh { access_sub := "cid-1"
                             refresh_family := "fam-0" }), st2) ∧
      st2.ledger.any (fun r => r.token_hash = witSha "rt-1") = true ∧
      st2.pending = witState.pending ∧
      oauth_token [("cid-1", witClient)] witSha witS256 witDecode 100 "fam-1"
        (Store.reachable ()) st2 "refresh_token" none none "cid-1" "s3cret"
        none (some "rt-1") =
        (.error (401, "Refresh token has already been used"), st2) ∧
      (∀ st3 : OAuthState,
        st3.ledger.any (fun r => r.token_hash = witSha "rt-1") = true →
        (oauth_token [("cid-1", witClient)] witSha witS256 witDecode 100
          "fam-1" (Store.reachable ()) st3 "refresh_token" none none "cid-1"
          "s3cret" none (some "rt-1")).1 =
          .error (401, "Refresh token has already been used")) :=
  C7_refresh_replay_rejected [("cid-1", witClient)] witSha witS256 witDecode
    100 "fam-1" witState "cid-1" "s3cret" "rt-1" witClient
    { typ := "refresh", sub := "cid-1", family := some "fam-0" }
    rfl rfl (by decide) rfl rfl rfl rfl

/-! ## Claim C10 — replay detection fails open on ledger-store failure -/

/-- Claim C10: when the ledger store is unreachable, the
`retry_on_transient` wrapper around `consume_refresh_token` returns the
structured error dict — which is truthy in Python — so the
`refresh_token` grant treats the secret as not yet consumed and issues a
fresh access+refresh pair, for **any** ledger contents (including one
already holding the presented hash); replay detection fails open instead
of answering 401 or 503. -/
theorem C10_ledger_fail_open
    (clients : List (String × OAuthClient)) (sha256hex s256 : String → String)
    (decode : String → JwtDecode) (nowT : Nat) (fresh_family : String)
    (st : OAuthState) (cid secret rt : String) (client : OAuthClient)
    (p : RefreshPayload)
    (hclient : alookup cid clients = some client)
    (hsecret : client.client_secret = sha256hex secret)
    (hrt : rt ≠ "")
    (hdec : decode rt = .ok p)
    (htyp : p.typ = "refresh")
    (hsub : p.sub = cid) :
    consume_refresh_token Store.unreachable st.ledger (sha256hex rt)
      (p.family.getD "legacy") cid = (.errorDict, st.ledger) ∧
    retryTruthy .errorDict = true ∧
    oauth_token clients sha256hex s256 decode nowT fresh_family
      Store.unreachable st "refresh_token" none none cid secret none
      (some rt) =
      (.ok (.fromRefresh { access_sub := cid
                           refresh_family := p.family.getD "legacy" }), st) := by
  refine ⟨?_, rfl, ?_⟩
  · simp [consume_refresh_token, retry_on_transient, MAX_RETRIES, retryGo,
      consumeBody]
  · simp [oauth_token, checkClientCreds, refreshGrant, strTruthy, hclient,
      hsecret, hrt, hdec, htyp, hsub, consume_refresh_token,
      retry_on_transient, MAX_RETRIES, retryGo, consumeBody, retryTruthy]

/-- Fixture: a ledger that already contains the hash of refresh secret
"rt-1" — the replay scenario — inside an `OAuthState`. -/
def witStateConsumed : OAuthState :=
  { pending := []
    ledger := [{ token_hash := "hex:rt-1", family_id := "fam-0",
                 client_id := "cid-1" }] }

/-- Witness for `C10_ledger_fail_open` at fully concrete inputs, with the
presented hash **already recorded** in the ledger: the replayed secret is
still granted a fresh pair when the store is unreachable. -/
theorem C10_ledger_fail_open_witness :
    consume_refresh_token Store.unreachable witStateConsumed.ledger
      (witSha "rt-1") "fam-0" "cid-1" = (.errorDict, witStateConsumed.ledger) ∧
    retryTruthy .errorDict = true ∧
    oauth_token [("cid-1", witClient)] witSha witS256 witDecode 100 "fam-1"
      Store.unreachable witStateConsumed "refresh_token" none none "cid-1"
      "s3cret" none (some "rt-1") =
      (.ok (.fromRefresh { access_sub := "cid-1"
                           refresh_family := "fam-0" }), witStateConsumed) :=
  C10_ledger_fail_open [("cid-1", witClient)] witSha witS256 witDecode 100
    "fam-1" witStateConsumed "cid-1" "s3cret" "rt-1" witClient
    { typ := "refresh", sub := "cid-1", family := some "fam-0" }
    rfl rfl (by decide) rfl rfl rfl

/-! ## Claim C8 — one pool per distinct tenant name -/

/-- The tenant names currently registered (the dict keys). -/
def EngineRegistry.keys (reg : EngineRegistry) : List String :=
  reg.engines.map Prod.fst

/-- Lookup misses exactly on the keys that are absent. -/
theorem alookup_eq_none_iff {α : Type} (k : String) (l : List (String × α)) :
    alookup k l = none ↔ k ∉ l.map Prod.fst := by
  induction l with
  | nil => simp [alookup]
  | cons p t ih =>
    obtain ⟨k2, v⟩ := p
    by_cases h : k2 = k
    · subst h
      simp [alookup]
    · have hk : ¬ k = k2 := fun he => h he.symm
      simp [alookup, h, hk, ih]

/-- A cache hit returns the stored engine and leaves the registry
untouched. -/
theorem get_engine_hit (reg : EngineRegistry) (n : String) (e : Nat)
    (h : alookup n reg.engines = some e) :
    reg.get_engine n = (e, reg) := by
  simp [EngineRegistry.get_engine, h]

/-- A cache miss creates exactly one new engine, stored under the
requested name. -/
theorem get_engine_miss (reg : EngineRegistry) (n : String)
    (h : alookup n reg.engines = none) :
    reg.get_engine n =
      (reg.created,
       { engines := (n, reg.created) :: reg.engines
         created := reg.created + 1 }) := by
  simp [EngineRegistry.get_engine, h]

/-- Existing bindings are never overwritten by `get_engine`. -/
theorem get_engine_preserves (reg : EngineRegistry) (n m : String) (e : Nat)
    (h : alookup m reg.engines = some e) :
    alookup m (reg.get_engine n).2.engines = some e := by
  cases hn : alookup n reg.engines with
  | some e2 => rw [get_engine_hit reg n e2 hn]; exact h
  | none =>
    rw [get_engine_miss reg n hn]
    have hmn : n ≠ m := by
      intro he
      subst he
      rw [hn] at h
      cases h
    simpa [alookup, hmn] using h

/-- Existing bindings survive any further sequence of `get_engine`
calls: the handle returned for a tenant name is stable forever. -/
theorem runGets_preserves (names : List String) (reg : EngineRegistry)
    (m : String) (e : Nat) (h : alookup m reg.engines = some e) :
    alookup m (runGets reg names).engines = some e := by
  induction names generalizing reg with
  | nil => exact h
  | cons n rest ih => exact ih _ (get_engine_preserves reg n m e h)

/-- Key membership after one `get_engine`: exactly the old keys plus the
requested name. -/
theorem mem_keys_get_engine (reg : EngineRegistry) (n m : String) :
    m ∈ (reg.get_engine n).2.keys ↔ m ∈ reg.keys ∨ m = n := by
  cases hn : alookup n reg.engines with
  | some e =>
    rw [get_engine_hit reg n e hn]
    constructor
    · exact fun h => Or.inl h
    · rintro (h | h)
      · exact h
      · subst h
        by_contra hm
        rw [(alookup_eq_none_iff m reg.engines).2 hm] at hn
        cases hn
  | none =>
    rw [get_engine_miss reg n hn]
    simp [EngineRegistry.keys, or_comm]

/-- Key distinctness is preserved: a pool is created only for a name not
yet present, so no tenant name ever has two pools. -/
theorem get_engine_nodup (reg : EngineRegistry) (n : String)
    (h : reg.keys.Nodup) : (reg.get_engine n).2.keys.Nodup := by
  cases hn : alookup n reg.engines with
  | some e => rw [get_engine_hit reg n e hn]; exact h
  | none =>
    rw [get_engine_miss reg n hn]
    refine List.Nodup.cons ?_ h
    exact (alookup_eq_none_iff n reg.engines).1 hn

/-- Key membership after a whole run: old keys plus all requested
names. -/
theorem mem_keys_runGets (names : List String) (reg : EngineRegistry)
    (m : String) :
    m ∈ (runGets reg names).keys ↔ m ∈ reg.keys ∨ m ∈ names := by
  induction names generalizing reg with
  | nil => simp [runGets]
  | cons n rest ih =>
    show m ∈ (runGets (reg.get_engine n).2 rest).keys ↔ _
    rw [ih, mem_keys_get_engine]
    simp [or_assoc, or_comm, or_left_comm]

/-- Key distinctness after a whole run. -/
theorem nodup_keys_runGets (names : List String) (reg : EngineRegistry)
    (h : reg.keys.Nodup) : (runGets reg names).keys.Nodup := by
  induction names generalizing reg with
  | nil => exact h
  | cons n rest ih => exact ih _ (get_engine_nodup reg n h)

/-- Claim C8: starting from an empty registry, any sequence of
`get_engine` calls (any interleaving of concurrent invocations — the
locked create section is atomic and the unlocked fast path never
mutates) leaves exactly one pool per distinct requested tenant name: the
registered names are exactly the requested ones, no name has two pools,
the pool count equals the number of distinct names, and once a name is
bound every later call returns the same cached handle without creating
anything. -/
theorem C8_one_pool_per_name (names : List String) :
    ((runGets { engines := [], created := 0 } names).engine_count =
      names.toFinset.card) ∧
    (∀ m, m ∈ (runGets { engines := [], created := 0 } names).keys ↔
      m ∈ names) ∧
    ((runGets { engines := [], created := 0 } names).keys.Nodup) ∧
    (∀ reg : EngineRegistry, ∀ n : String, ∀ e : Nat,
      alookup n reg.engines = some e → reg.get_engine n = (e, reg)) ∧
    (∀ reg : EngineRegistry, ∀ n : String,
      ((reg.get_engine n).2.get_engine n) =
        ((reg.get_engine n).1, (reg.get_engine n).2)) := by
  have hmem : ∀ m, m ∈ (runGets { engines := [], created := 0 } names).keys ↔
      m ∈ names := by
    intro m
    rw [mem_keys_runGets]
    simp [EngineRegistry.keys]
  have hnodup : (runGets { engines := [], created := 0 } names).keys.Nodup :=
    nodup_keys_runGets names _ (by simp [EngineRegistry.keys])
  refine ⟨?_, hmem, hnodup, ?_, ?_⟩
  · have hlen : (runGets { engines := [], created := 0 } names).engine_count =
        (runGets { engines := [], created := 0 } names).keys.length := by
      simp [EngineRegistry.engine_count, EngineRegistry.keys]
    rw [hlen, ← List.toFinset_card_of_nodup hnodup]
    congr 1
    apply Finset.ext
    intro m
    simp [List.mem_toFinset, hmem m]
  · intro reg n e h
    exact get_engine_hit reg n e h
  · intro reg n
    cases hn : alookup n reg.engines with
    | some e =>
      rw [get_engine_hit reg n e hn]
      exact get_engine_hit reg n e hn
    | none =>
      rw [get_engine_miss reg n hn]
      exact get_engine_hit _ n reg.created (by simp [alookup])

/-- Witness for `C8_one_pool_per_name`: three invocations over two
distinct tenant names create exactly two pools, and the cache-hit
conjunct applied at a concrete registry returns the stored handle. -/
theorem C8_one_pool_per_name_witness :
    ((runGets { engines := [], created := 0 }
      ["db-a", "db-b", "db-a"]).engine_count = 2) ∧
    EngineRegistry.get_engine { engines := [("db-a", 0)], created := 1 }
      "db-a" = (0, { engines := [("db-a", 0)], created := 1 }) := by
  constructor
  · rw [(C8_one_pool_per_name ["db-a", "db-b", "db-a"]).1]
    decide
  · exact (C8_one_pool_per_name []).2.2.2.1
      { engines := [("db-a", 0)], created := 1 } "db-a" 0 (by decide)

end MeetingIntel
